import Mathlib

/-
Formal model of `src/app.py` (hybrid chatbot: BigQuery button queries plus a
Vanna natural-language-to-SQL SSE relay).

Modelling conventions:
* `query_bigquery` (app.py lines 66-73) wraps one backend call in
  `try/except`; the external BigQuery backend is modelled by its outcome
  (`BQOutcome`): either the row list it would return or the exception
  message it would raise.
* `query_vanna` (app.py lines 75-132) drains an HTTP SSE stream.  The
  external transport is modelled by `Transport`: either a response carrying
  an HTTP status and the list of decoded body lines, or an exception raised
  by `requests.post` / mid-iteration (the lines already yielded before the
  exception are recorded).  The code never reads the HTTP status; the model
  keeps it so that claims about non-success statuses can be stated.
* `json.loads` is an external library routine.  Two decoder models are
  used.  The crash-free model passes a decode function
  `String → Option VRecord` (`none` models `json.JSONDecodeError`); a
  decoded record is modelled by the fields the loop inspects: `type`,
  `semantic_type`, `text`, `sql`, `json_table`.  The crash-aware model
  (`Decoded`, `processLineE`, `foldLines`, `query_vannaE`) additionally
  expresses payloads that decode to JSON of the wrong shape, on which the
  loop body raises past the inner `except json.JSONDecodeError` handler
  and the outer `except Exception` aborts the whole call into
  `{"error": msg}`.  On streams without such payloads the two models are
  proved to agree (`query_vannaE_agrees`).
* The per-record classification of the loop body (lines 110-120) is made
  observable as a list of `StreamEvent`s (`recordEvents` / `relayTrace`):
  this is the "forwarded event" sequence the spec talks about.  The state
  updates of the loop are exactly the replay of those events (`applyEvent`),
  which is proved, not assumed.
-/

/-- Rows of a decoded `json_table` dataframe payload (content is inert for
the relay: it is stored and returned unchanged). -/
abbrev DFData := List (List (String × String))

/-- A dataframe table under the `json_table` key that does carry a `data`
field, read by `data['json_table']['data']` (app.py line 120).  A
`json_table` value without a `data` key makes that access raise `KeyError`
and is therefore not a `JsonTable`: such a record is modelled by
`Decoded.crash` below, not by a `VRecord`. -/
structure JsonTable where
  data : DFData
deriving DecidableEq

/-- A decoded SSE record that is a dict whose inspected fields are well
typed, restricted to the fields `query_vanna` inspects.  `none` models an
absent key (`dict.get` returning `None` / `in` failing).  A payload that
decodes to JSON but not to such a dict — a scalar or list (on which
`data.get` raises `AttributeError`), or a dataframe dict whose
`json_table` lacks a `data` key (`KeyError` at line 120) — crashes the
loop body instead of classifying; it is modelled by `Decoded.crash`
below, not by a `VRecord`. -/
structure VRecord where
  type : Option String := none
  semantic_type : Option String := none
  text : Option String := none
  sql : Option String := none
  json_table : Option JsonTable := none
deriving DecidableEq

/-- The classified stream events of spec §3.  The source never emits
`Intermediate`: records with `semantic_type` `intermediate_ai_message` are
deliberately ignored (app.py line 110: "Only capture the final AI message").
The constructor is kept so that statements about intermediate events can be
written. -/
inductive StreamEvent where
  | Intermediate (text : String)
  | FinalAnswer (text : String)
  | SqlExtracted (sql : String)
  | Tabular (rows : DFData)
deriving DecidableEq

/-- The local accumulator of the `query_vanna` loop (app.py lines 98-100):
`final_response = ""`, `sql_query = None`, `dataframe_data = None`. -/
structure LoopState where
  final_response : String := ""
  sql_query : Option String := none
  dataframe_data : Option DFData := none
deriving DecidableEq

/-- The value `query_vanna` returns (app.py lines 125-132): either the
success dict `{response, sql, dataframe}` or the `{"error": msg}` dict
built by the `except` clause. -/
inductive VannaResult where
  | ok (response : String) (sql : Option String) (dataframe : Option DFData)
  | error (msg : String)
deriving DecidableEq

/-- The transport behaviour of `requests.post(..., stream=True)` plus
`response.iter_lines()`: either a response with an HTTP status and the
decoded body lines (requests does not raise on a non-success status, and
the code never reads `response.status_code`), or an exception raised after
yielding some of the lines (`linesBefore`). -/
inductive Transport where
  | resp (status : Nat) (lines : List String)
  | raised (linesBefore : List String) (msg : String)

/-- One iteration of the `for line in response.iter_lines()` body
(app.py lines 102-123), for an already-decoded record: the three
classification steps, in source order. -/
def processRecord (st : LoopState) (d : VRecord) : LoopState :=
  let st1 := if d.type = some "text" ∧ d.semantic_type = some "final_ai_message"
             then { st with final_response := d.text.getD "" } else st
  let st2 := match d.sql with
             | some s => { st1 with sql_query := some s }
             | none => st1
  let st3 := if d.type = some "dataframe" then
               match d.json_table with
               | some t => { st2 with dataframe_data := some t.data }
               | none => st2
             else st2
  st3

/-- One iteration of the line loop (app.py lines 102-123): skip falsy lines,
require the `data: ` framing marker (first 6 characters), decode the rest of
the line with `json.loads` (modelled by `jsonLoads`), skip the line on a
decode failure (`continue`). -/
def processLine (jsonLoads : String → Option VRecord) (st : LoopState)
    (line : String) : LoopState :=
  if line = "" then st
  else if line.data.take 6 = ("data: ").data then
    match jsonLoads (String.mk (line.data.drop 6)) with
    | some d => processRecord st d
    | none => st
  else st

/-- `query_vanna` (app.py lines 75-132): drain the stream, fold the loop
body over the lines, return the result dict; if the transport raised at any
point, the `except` clause returns `{"error": msg}`, discarding any state
accumulated from lines seen before the exception. -/
def query_vanna (jsonLoads : String → Option VRecord) (t : Transport) :
    VannaResult :=
  match t with
  | .resp _ lines =>
      let st := lines.foldl (processLine jsonLoads) {}
      VannaResult.ok st.final_response st.sql_query st.dataframe_data
  | .raised _ msg => VannaResult.error msg

/-- The no-answer message of `main` (app.py line 371). -/
def noAnswerMsg : String := "No response received from AI. Please try again."

/-- The display decision of `main` (app.py lines 361-372): an `error` key
yields the error message; otherwise a truthy (non-empty) `response` is
shown, and a falsy one yields the no-answer message. -/
def mainDisplay : VannaResult → String
  | VannaResult.error e => "❌ Error: " ++ e
  | VannaResult.ok resp _ _ => if resp = "" then noAnswerMsg else resp

/-- The analytical backend's behaviour on one call, as seen by
`query_bigquery`: either the row list of a successful `query(...).result()`
or the message of the exception it raises. -/
inductive BQOutcome (α : Type) where
  | rows (rs : List α)
  | raised (msg : String)

/-- The value `query_bigquery` returns: a Python list of rows on success or
the `f"Error: {str(e)}"` string on exception. -/
inductive BQResult (α : Type) where
  | rows (rs : List α)
  | errorString (s : String)
deriving DecidableEq

/-- `query_bigquery` (app.py lines 66-73): run the query inside
`try/except Exception`, returning `list(results)` or `"Error: " + str(e)`. -/
def query_bigquery {α : Type} (backend : BQOutcome α) : BQResult α :=
  match backend with
  | .rows rs => BQResult.rows rs
  | .raised e => BQResult.errorString ("Error: " ++ e)

/-- The `isinstance(results, str)` test used by every button handler
(e.g. app.py line 175) on the modelled result shape. -/
def bqIsStr {α : Type} : BQResult α → Bool
  | .rows _ => false
  | .errorString _ => true

/-- The classified events of one decoded record, in the order the loop body
inspects them (app.py lines 110-120): final text capture, then `sql`
extraction, then dataframe extraction.  A record matching none of the three
conditions (in particular an `intermediate_ai_message` record) produces no
event. -/
def recordEvents (d : VRecord) : List StreamEvent :=
  (if d.type = some "text" ∧ d.semantic_type = some "final_ai_message"
   then [StreamEvent.FinalAnswer (d.text.getD "")] else [])
  ++ (match d.sql with
      | some s => [StreamEvent.SqlExtracted s]
      | none => [])
  ++ (if d.type = some "dataframe" then
        match d.json_table with
        | some t => [StreamEvent.Tabular t.data]
        | none => []
      else [])

/-- The classified events contributed by one raw line: none for a falsy
line, an unframed line, or a line whose payload fails to decode. -/
def lineEvents (jsonLoads : String → Option VRecord) (line : String) :
    List StreamEvent :=
  if line = "" then []
  else if line.data.take 6 = ("data: ").data then
    match jsonLoads (String.mk (line.data.drop 6)) with
    | some d => recordEvents d
    | none => []
  else []

/-- Replay of one classified event on the loop state: exactly the state
update the loop body performs for that event. -/
def applyEvent (st : LoopState) : StreamEvent → LoopState
  | .Intermediate _ => st
  | .FinalAnswer t => { st with final_response := t }
  | .SqlExtracted s => { st with sql_query := some s }
  | .Tabular rows => { st with dataframe_data := some rows }

/-- Instrumented loop iteration: the state update of `processLine` paired
with the events the line contributes, appended in arrival order. -/
def relayStep (jsonLoads : String → Option VRecord)
    (acc : LoopState × List StreamEvent) (line : String) :
    LoopState × List StreamEvent :=
  (processLine jsonLoads acc.1 line, acc.2 ++ lineEvents jsonLoads line)

/-- The full sequence of classified events of a successfully drained
stream, in arrival order: the observable trace of the loop. -/
def relayTrace (jsonLoads : String → Option VRecord) (lines : List String) :
    List StreamEvent :=
  (lines.foldl (relayStep jsonLoads) ({}, [])).2

/-- Per-line concatenation of the classified events, in stream order. -/
def eventsOfLines (jsonLoads : String → Option VRecord) :
    List String → List StreamEvent
  | [] => []
  | l :: ls => lineEvents jsonLoads l ++ eventsOfLines jsonLoads ls

/-- The texts of the `FinalAnswer` events of a trace, in order. -/
def finalTexts (events : List StreamEvent) : List String :=
  events.filterMap fun e =>
    match e with
    | .FinalAnswer t => some t
    | _ => none

/-- The payload of an `SqlExtracted` event. -/
def sqlOfEvent : StreamEvent → Option String
  | .SqlExtracted s => some s
  | _ => none

/-- The last element of a list, or the default when the list is empty. -/
def lastOrDefault : List String → String → String
  | [], d => d
  | t :: ts, _ => lastOrDefault ts t

/-- The `response` field of a result dict, when present. -/
def vrResponse : VannaResult → Option String
  | .ok r _ _ => some r
  | .error _ => none

/-- Whether a result dict is the `{"error": ...}` shape. -/
def vrIsError : VannaResult → Bool
  | .ok _ _ _ => false
  | .error _ => true

/-- A decoder on which every payload fails (`json.JSONDecodeError` on every
framed line). -/
def dec0 : String → Option VRecord := fun _ => none

/-- A concrete decoder realising the synthetic stream of spec §8: the
payload `intermediate-thinking` decodes to the record
`{type: text, semantic_type: intermediate_ai_message, text: "thinking"}`
and the payload `final-42` to
`{type: text, semantic_type: final_ai_message, text: "42"}`. -/
def synthDec : String → Option VRecord := fun s =>
  if s = "intermediate-thinking" then
    some { type := some "text", semantic_type := some "intermediate_ai_message",
           text := some "thinking" }
  else if s = "final-42" then
    some { type := some "text", semantic_type := some "final_ai_message",
           text := some "42" }
  else none

/-- The framed lines of the synthetic stream of spec §8. -/
def synthLines : List String :=
  ["data: intermediate-thinking", "data: final-42"]

/-- A concrete decoder producing two distinct final answers. -/
def dec9 : String → Option VRecord := fun s =>
  if s = "final-first" then
    some { type := some "text", semantic_type := some "final_ai_message",
           text := some "first" }
  else if s = "final-second" then
    some { type := some "text", semantic_type := some "final_ai_message",
           text := some "second" }
  else none

/-- Two framed lines, each carrying a final answer. -/
def lines9 : List String := ["data: final-first", "data: final-second"]

/-- A concrete decoder producing one final-answer record whose `text` field
is absent. -/
def dec10 : String → Option VRecord := fun s =>
  if s = "final-empty" then
    some { type := some "text", semantic_type := some "final_ai_message" }
  else none

/-- One framed line carrying a final-answer record without a `text` field. -/
def lines10 : List String := ["data: final-empty"]

/-- The single result row of the total-sales query
(app.py lines 162-170): `total_sales` and `total_orders`. -/
structure TSRow where
  total_sales : ℚ
  total_orders : Nat
deriving DecidableEq

/-- Modelled from the spec: `ROUND(x, 2)` of the analytical backend, which
is an external service, not code under `src/`.  Rounds half away from zero
to two decimals; exact decimal arithmetic is modelled by rationals. -/
def round2 (x : ℚ) : ℚ :=
  if 0 ≤ x then (Int.floor (x * 100 + 1/2) : ℚ) / 100
  else -((Int.floor (-x * 100 + 1/2) : ℚ) / 100)

/-- Modelled from the spec: the analytical backend's evaluation of the
total-sales query `SELECT ROUND(SUM(sale_price), 2) AS total_sales,
COUNT(*) AS total_orders FROM order_items WHERE sale_price IS NOT NULL`
over a table given by its `sale_price` column (`none` is a SQL NULL).  The
backend executing this query is external, so its behaviour on the query is
taken from the spec's §8 scenario description. -/
def evalTotalSales (sale_prices : List (Option ℚ)) : List TSRow :=
  let xs := sale_prices.filterMap id
  [⟨round2 xs.sum, xs.length⟩]

/-- The outcome of `json.loads` on a framed payload, together with the fate
of the loop body on the decoded value:
* `fail` — `json.JSONDecodeError`; caught by the inner handler
  (app.py lines 122-123), the loop continues with the next line;
* `crash msg` — the payload decodes, but classifying it raises an
  exception the inner handler does not catch (it catches only
  `JSONDecodeError`): a non-dict value such as `42` raises
  `AttributeError` at `data.get('type')` (line 111), and a dict with
  `type: dataframe` whose `json_table` has no `data` key raises `KeyError`
  at line 120.  The exception escapes to the outer `except Exception`
  (line 131), which aborts the whole call into `{"error": msg}`; the local
  state accumulated before the crash is discarded with the locals, so the
  crash is observationally just its message;
* `record d` — the payload decodes to a dict whose inspected fields are
  well typed. -/
inductive Decoded where
  | fail
  | crash (msg : String)
  | record (d : VRecord)

/-- Crash-aware line step (app.py lines 102-123): falsy and unframed lines
are skipped, a decode failure continues the loop, an ill-shaped decodable
payload aborts it with the exception message. -/
def processLineE (dec : String → Decoded) (st : LoopState) (line : String) :
    Except String LoopState :=
  if line = "" then Except.ok st
  else if line.data.take 6 = ("data: ").data then
    match dec (String.mk (line.data.drop 6)) with
    | .fail => Except.ok st
    | .crash m => Except.error m
    | .record d => Except.ok (processRecord st d)
  else Except.ok st

/-- Crash-aware loop over the stream lines: stops at the first line whose
record crashes, with that line's exception message. -/
def foldLines (dec : String → Decoded) :
    LoopState → List String → Except String LoopState
  | st, [] => Except.ok st
  | st, l :: ls =>
      match processLineE dec st l with
      | Except.ok st2 => foldLines dec st2 ls
      | Except.error m => Except.error m

/-- `query_vanna` over the crash-aware decoder model: the outer
`except Exception` (app.py line 131) converts both transport faults and
loop-body crashes to the `{"error": msg}` dict. -/
def query_vannaE (dec : String → Decoded) (t : Transport) : VannaResult :=
  match t with
  | .resp _ lines =>
      match foldLines dec {} lines with
      | Except.ok st =>
          VannaResult.ok st.final_response st.sql_query st.dataframe_data
      | Except.error m => VannaResult.error m
  | .raised _ msg => VannaResult.error msg

/-- The classified events of one line in the crash-aware model; `none`
when the line crashes the loop. -/
def lineEventsE (dec : String → Decoded) (line : String) :
    Option (List StreamEvent) :=
  if line = "" then some []
  else if line.data.take 6 = ("data: ").data then
    match dec (String.mk (line.data.drop 6)) with
    | .fail => some []
    | .crash _ => none
    | .record d => some (recordEvents d)
  else some []

/-- The crash message of a line, when its payload decodes to an ill-shaped
value. -/
def lineCrash (dec : String → Decoded) (line : String) : Option String :=
  if line = "" then none
  else if line.data.take 6 = ("data: ").data then
    match dec (String.mk (line.data.drop 6)) with
    | .crash m => some m
    | _ => none
  else none

/-- Forgetting the crash path: the decoder seen by the crash-free model. -/
def toOptDec (dec : String → Decoded) : String → Option VRecord := fun s =>
  match dec s with
  | .record d => some d
  | _ => none

/-- A concrete crash-aware decoder: payload `junk` is not JSON (decode
failure, skipped); payload `42` is JSON but not a dict (`AttributeError`
at `data.get('type')`); payload `dfbad` stands for a dataframe record
whose `json_table` has no `data` key (`KeyError` at line 120); payload
`intermediate` is a well-typed record matching no classification (no
event). -/
def decC2 : String → Decoded := fun s =>
  if s = "junk" then Decoded.fail
  else if s = "42" then Decoded.crash "AttributeError: get"
  else if s = "dfbad" then Decoded.crash "KeyError: data"
  else if s = "intermediate" then
    Decoded.record { type := some "text",
                     semantic_type := some "intermediate_ai_message",
                     text := some "thinking" }
  else Decoded.fail

/-- The loop body on one decoded record is the replay of the record's
classified events, in order. -/
theorem processRecord_eq (st : LoopState) (d : VRecord) :
    processRecord st d = (recordEvents d).foldl applyEvent st := by
  unfold processRecord recordEvents
  by_cases h1 : d.type = some "text" ∧ d.semantic_type = some "final_ai_message" <;>
    by_cases h3 : d.type = some "dataframe" <;>
      cases h2 : d.sql <;>
        cases h4 : d.json_table <;>
          simp [h1, h2, h3, h4, applyEvent, List.foldl_append]

/-- The loop body on one raw line is the replay of the line's classified
events, in order. -/
theorem processLine_eq (jsonLoads : String → Option VRecord) (st : LoopState)
    (line : String) :
    processLine jsonLoads st line
      = (lineEvents jsonLoads line).foldl applyEvent st := by
  by_cases h1 : line = ""
  · simp [processLine, lineEvents, h1]
  · by_cases h2 : line.data.take 6 = ("data: ").data
    · cases hd : jsonLoads (String.mk (line.data.drop 6)) with
      | none => simp [processLine, lineEvents, h1, h2, hd]
      | some d => simp [processLine, lineEvents, h1, h2, hd, processRecord_eq]
    · simp [processLine, lineEvents, h1, h2]

/-- The whole loop is the replay of the stream's classified events. -/
theorem foldl_processLine (jsonLoads : String → Option VRecord)
    (lines : List String) (st : LoopState) :
    lines.foldl (processLine jsonLoads) st
      = (eventsOfLines jsonLoads lines).foldl applyEvent st := by
  induction lines generalizing st with
  | nil => rfl
  | cons l ls ih =>
      simp only [List.foldl_cons, eventsOfLines, List.foldl_append,
        processLine_eq, ih]

/-- The instrumented loop computes the `processLine` fold in its first
component and appends the per-line events, in arrival order, in its
second. -/
theorem relayStep_foldl (jsonLoads : String → Option VRecord)
    (lines : List String) (st : LoopState) (evs : List StreamEvent) :
    lines.foldl (relayStep jsonLoads) (st, evs)
      = (lines.foldl (processLine jsonLoads) st,
         evs ++ eventsOfLines jsonLoads lines) := by
  induction lines generalizing st evs with
  | nil => simp [eventsOfLines]
  | cons l ls ih =>
      simp [relayStep, eventsOfLines, ih, List.append_assoc, List.foldl_cons]

/-- The observable trace is the per-line concatenation of the classified
events: events are surfaced in arrival order, each line's events before the
next line is read. -/
theorem relayTrace_eq (jsonLoads : String → Option VRecord)
    (lines : List String) :
    relayTrace jsonLoads lines = eventsOfLines jsonLoads lines := by
  unfold relayTrace
  rw [relayStep_foldl]
  rfl

/-- Classified events distribute over stream concatenation. -/
theorem eventsOfLines_append (jsonLoads : String → Option VRecord)
    (as bs : List String) :
    eventsOfLines jsonLoads (as ++ bs)
      = eventsOfLines jsonLoads as ++ eventsOfLines jsonLoads bs := by
  induction as with
  | nil => rfl
  | cons a as ih => simp [eventsOfLines, ih, List.cons_append, List.append_assoc]

/-- Replaying a trace leaves `final_response` at the last `FinalAnswer`
text, or at its initial value when the trace has none. -/
theorem applyEvents_final (evs : List StreamEvent) (st : LoopState) :
    (evs.foldl applyEvent st).final_response
      = lastOrDefault (finalTexts evs) st.final_response := by
  induction evs generalizing st with
  | nil => rfl
  | cons e es ih =>
      cases e with
      | Intermediate t => simp [finalTexts, List.filterMap_cons, applyEvent, ih]
      | FinalAnswer t =>
          simp [finalTexts, List.filterMap_cons, applyEvent, ih, lastOrDefault]
      | SqlExtracted s => simp [finalTexts, List.filterMap_cons, applyEvent, ih]
      | Tabular r => simp [finalTexts, List.filterMap_cons, applyEvent, ih]

/-- Unfolded success case of `query_vanna`. -/
theorem query_vanna_resp_def (jsonLoads : String → Option VRecord)
    (status : Nat) (lines : List String) :
    query_vanna jsonLoads (Transport.resp status lines)
      = VannaResult.ok (lines.foldl (processLine jsonLoads) {}).final_response
          (lines.foldl (processLine jsonLoads) {}).sql_query
          (lines.foldl (processLine jsonLoads) {}).dataframe_data := rfl

/-- The accumulated `final_response` is the last final-answer text of the
trace, or `""` when there is none. -/
theorem loop_final_response (jsonLoads : String → Option VRecord)
    (lines : List String) :
    (lines.foldl (processLine jsonLoads) ({} : LoopState)).final_response
      = lastOrDefault (finalTexts (relayTrace jsonLoads lines)) "" := by
  rw [foldl_processLine, applyEvents_final, relayTrace_eq]

/-- The response surfaced by `query_vanna` on a drained stream is exactly
the last final-answer text of the trace, defaulting to `""`. -/
theorem query_vanna_response_eq (jsonLoads : String → Option VRecord)
    (status : Nat) (lines : List String) :
    vrResponse (query_vanna jsonLoads (Transport.resp status lines))
      = some (lastOrDefault (finalTexts (relayTrace jsonLoads lines)) "") := by
  rw [query_vanna_resp_def]
  show some _ = some _
  rw [loop_final_response]

/-- A stream whose lines all classify to nothing yields the empty event
list. -/
theorem eventsOfLines_nil_of (jsonLoads : String → Option VRecord)
    (lines : List String) (h : ∀ l ∈ lines, lineEvents jsonLoads l = []) :
    eventsOfLines jsonLoads lines = [] := by
  induction lines with
  | nil => rfl
  | cons a as ih =>
      show lineEvents jsonLoads a ++ eventsOfLines jsonLoads as = []
      rw [h a (by simp), ih (fun l hl => h l (by simp [hl]))]
      rfl

/-- A list of empty strings has an empty last element. -/
theorem lastOrDefault_empty (l : List String) (d : String)
    (h : ∀ t ∈ l, t = "") (hd : d = "") : lastOrDefault l d = "" := by
  induction l generalizing d with
  | nil => exact hd
  | cons a as ih => exact ih a (fun t ht => h t (by simp [ht])) (h a (by simp))

/-- For a non-empty list, `lastOrDefault` is the last element. -/
theorem lastOrDefault_eq_getLast? (l : List String) (d : String)
    (h : l ≠ []) : some (lastOrDefault l d) = l.getLast? := by
  induction l generalizing d with
  | nil => exact absurd rfl h
  | cons a as ih =>
      cases as with
      | nil => rfl
      | cons b bs =>
          rw [show lastOrDefault (a :: b :: bs) d = lastOrDefault (b :: bs) a
                from rfl,
              ih a (by simp)]
          exact List.getLast?_cons_cons.symm

/-- The error string built by `query_bigquery` is never empty. -/
theorem append_error_ne_empty (m : String) : ("Error: " ++ m) ≠ "" := by
  intro h
  cases m with
  | mk l =>
    exact Option.noConfusion (congrArg (fun s : String => s.data.head?) h)

/-- The error display of `main` never equals the no-answer message. -/
theorem errorDisplay_ne_noAnswerMsg (m : String) :
    mainDisplay (VannaResult.error m) ≠ noAnswerMsg := by
  intro h
  cases m with
  | mk l =>
    have h2 : some '❌' = some 'N' :=
      congrArg (fun s : String => s.data.head?) h
    exact absurd h2 (by decide)

/-- Claim C1, counterexample: on the synthetic stream of spec §8 (an
`intermediate_ai_message` record with text `thinking`, then a
`final_ai_message` record with text `42`, then end of stream), the relay
does not surface two events: the classified-event trace has length 1, not
2, because the source ignores intermediate messages ("Only capture the
final AI message", app.py line 110), so the claimed "invokes onEvent
exactly twice" is false. -/
theorem relay_synthetic_not_two_events :
    ((relayTrace synthDec synthLines).length = 2) = False :=
  eq_false (by decide)

/-- Claim C1, amended: events are classified and applied strictly in
arrival order, each line's events before the next line is read
(`relayTrace = eventsOfLines`, a per-line concatenation); on the synthetic
stream exactly one event is surfaced — `FinalAnswer "42"` — the
intermediate record producing no event, and the call returns the success
dict with response `"42"`. -/
theorem relay_synthetic_single_final_event :
    relayTrace synthDec synthLines = [StreamEvent.FinalAnswer "42"]
    ∧ query_vanna synthDec (Transport.resp 200 synthLines)
        = VannaResult.ok "42" none none
    ∧ ∀ (jsonLoads : String → Option VRecord) (lines : List String),
        relayTrace jsonLoads lines = eventsOfLines jsonLoads lines :=
  ⟨by decide, by decide, relayTrace_eq⟩

/-- Claim C3, counterexample: a non-success HTTP status is not a failure
for this code.  `requests.post` raises only on connection-level errors, and
`query_vanna` never reads `response.status_code`; on a status-500 response
whose body yields no records, the call returns the success dict (response
`""`), not `{"error": ...}` — refuting "non-success HTTP status ⇒
Failure(message)". -/
theorem relay_http_status_not_failure :
    query_vanna dec0 (Transport.resp 500 []) = VannaResult.ok "" none none
    ∧ vrIsError (query_vanna dec0 (Transport.resp 500 [])) = false :=
  ⟨rfl, rfl⟩

/-- Claim C3, amended: when the transport raises (connection error or a
fault at any point of the iteration, including after zero records), the
relay returns `Failure(message)`; the result is independent of the lines
already yielded (no partial results are replayed, nothing is forwarded),
and it is displayed as the error message.  A non-success HTTP status that
does not raise is not detected and its body is processed as a normal
stream. -/
theorem relay_transport_exception_failure
    (jsonLoads : String → Option VRecord) (seen : List String)
    (msg : String) :
    query_vanna jsonLoads (Transport.raised seen msg) = VannaResult.error msg
    ∧ query_vanna jsonLoads (Transport.raised seen msg)
        = query_vanna jsonLoads (Transport.raised [] msg)
    ∧ mainDisplay (query_vanna jsonLoads (Transport.raised seen msg))
        = "❌ Error: " ++ msg :=
  ⟨rfl, rfl, rfl⟩

/-- Claim C4 (confirmed): `query_bigquery` is total (the whole call sits in
`try/except Exception`); a query the backend accepts returns exactly the
backend's rows, and a query it rejects returns the failure string
`"Error: " ++ msg`, which is never empty. -/
theorem query_bigquery_total_contract (α : Type) (rs : List α)
    (msg : String) :
    query_bigquery (BQOutcome.rows rs) = BQResult.rows rs
    ∧ query_bigquery (BQOutcome.raised msg : BQOutcome α)
        = BQResult.errorString ("Error: " ++ msg)
    ∧ ("Error: " ++ msg) ≠ "" :=
  ⟨rfl, rfl, append_error_ne_empty msg⟩

/-- Claim C5 (confirmed): the surfaced answer is the single last
final-answer text of the trace (so at most one `FinalAnswer` is surfaced
per request); a stream that completes without any final answer is
displayed as the explicit no-answer message; and that message never
coincides with the display of a transport failure. -/
theorem relay_no_answer_distinct :
    (∀ (jsonLoads : String → Option VRecord) (status : Nat)
        (lines : List String),
        finalTexts (relayTrace jsonLoads lines) = [] →
        mainDisplay (query_vanna jsonLoads (Transport.resp status lines))
          = noAnswerMsg)
    ∧ (∀ (jsonLoads : String → Option VRecord) (status : Nat)
        (lines : List String),
        vrResponse (query_vanna jsonLoads (Transport.resp status lines))
          = some (lastOrDefault (finalTexts (relayTrace jsonLoads lines)) ""))
    ∧ ∀ msg : String, mainDisplay (VannaResult.error msg) ≠ noAnswerMsg := by
  refine ⟨?_, query_vanna_response_eq, errorDisplay_ne_noAnswerMsg⟩
  intro jsonLoads status lines h
  rw [query_vanna_resp_def, loop_final_response, h]
  rfl

/-- Claim C5, witness: a stream with one unframed line has no final answer
and displays the no-answer message. -/
theorem relay_no_answer_distinct_witness :
    finalTexts (relayTrace dec0 ["hi"]) = []
    ∧ mainDisplay (query_vanna dec0 (Transport.resp 404 ["hi"])) = noAnswerMsg :=
  ⟨by decide, relay_no_answer_distinct.1 dec0 404 ["hi"] (by decide)⟩

/-- Claim C6 (confirmed): the `SqlExtracted` events of a record are exactly
the content of its `sql` field — `sql_query = data['sql']` copies the
string unmodified (app.py lines 115-116), and no other branch produces an
`SqlExtracted` event. -/
theorem sql_extracted_round_trip (d : VRecord) :
    (recordEvents d).filterMap sqlOfEvent = d.sql.toList := by
  unfold recordEvents
  by_cases h1 : d.type = some "text" ∧ d.semantic_type = some "final_ai_message" <;>
    by_cases h3 : d.type = some "dataframe" <;>
      cases h2 : d.sql <;>
        cases h4 : d.json_table <;>
          simp [h1, h2, h3, h4, sqlOfEvent, Option.toList,
            List.filterMap_append, List.filterMap_cons]

/-- Claim C7 (confirmed against the spec-modelled backend): the total-sales
query over two rows with `sale_price` 10.005 and 5.00 sums to 15.005,
rounds half away from zero to 15.01, counts 2 rows, and `query_bigquery`
passes the backend's single row through unchanged. -/
theorem total_sales_rounding_scenario :
    query_bigquery (BQOutcome.rows (evalTotalSales [some (10005/1000), some 5]))
      = BQResult.rows [⟨1501/100, 2⟩] := by
  have h1 : evalTotalSales [some (10005/1000), some 5] = [⟨1501/100, 2⟩] := by
    norm_num [evalTotalSales, round2, List.sum_cons, List.sum_nil,
      List.filterMap_cons, List.filterMap_nil]
  rw [h1]
  rfl

/-- Claim C8 (confirmed): every `query_bigquery` result is either the
backend's row list (with `isinstance(results, str)` false) or the string
`"Error: " ++ msg` for the raised exception (with the test true and the
string non-empty): the string test used by every button handler exactly
discriminates the failure case from the success case. -/
theorem query_bigquery_result_shape (α : Type) (o : BQOutcome α) :
    (∃ rs, o = BQOutcome.rows rs ∧ query_bigquery o = BQResult.rows rs
        ∧ bqIsStr (query_bigquery o) = false)
    ∨ (∃ m, o = BQOutcome.raised m
        ∧ query_bigquery o = BQResult.errorString ("Error: " ++ m)
        ∧ bqIsStr (query_bigquery o) = true
        ∧ ("Error: " ++ m) ≠ "") := by
  cases o with
  | rows rs => exact Or.inl ⟨rs, rfl, rfl, rfl⟩
  | raised m => exact Or.inr ⟨m, rfl, rfl, rfl, append_error_ne_empty m⟩

/-- Claim C9 (confirmed): when the trace carries two or more final-answer
texts, the surfaced response is exactly the last of them — each
`final_ai_message` record overwrites `final_response`
(app.py lines 110-112), so the later one wins. -/
theorem relay_last_final_wins (jsonLoads : String → Option VRecord)
    (status : Nat) (lines : List String)
    (h : 2 ≤ (finalTexts (relayTrace jsonLoads lines)).length) :
    vrResponse (query_vanna jsonLoads (Transport.resp status lines))
      = (finalTexts (relayTrace jsonLoads lines)).getLast? := by
  rw [query_vanna_response_eq]
  refine lastOrDefault_eq_getLast? _ _ ?_
  intro hn
  rw [hn] at h
  exact absurd h (by decide)

/-- Claim C9, witness: two final answers `first` then `second`; the
response is `second`. -/
theorem relay_last_final_wins_witness :
    2 ≤ (finalTexts (relayTrace dec9 lines9)).length
    ∧ vrResponse (query_vanna dec9 (Transport.resp 200 lines9))
        = (finalTexts (relayTrace dec9 lines9)).getLast? :=
  ⟨by decide, relay_last_final_wins dec9 200 lines9 (by decide)⟩

/-- Claim C10 (confirmed): when every final answer of the stream carries
empty text (in particular when the only `final_ai_message` record has
`text` empty or absent — `data.get('text', '')` yields `""`), the response
is `""`, `main` displays the no-answer message, and the public display is
identical to that of a stream with no final answer at all. -/
theorem relay_empty_final_indistinguishable
    (jsonLoads : String → Option VRecord) (status : Nat)
    (lines : List String)
    (h : ∀ t ∈ finalTexts (relayTrace jsonLoads lines), t = "") :
    vrResponse (query_vanna jsonLoads (Transport.resp status lines)) = some ""
    ∧ mainDisplay (query_vanna jsonLoads (Transport.resp status lines))
        = noAnswerMsg
    ∧ mainDisplay (query_vanna jsonLoads (Transport.resp status lines))
        = mainDisplay (query_vanna jsonLoads (Transport.resp status [])) := by
  have hr : (lines.foldl (processLine jsonLoads) ({} : LoopState)).final_response
      = "" := by
    rw [loop_final_response]
    exact lastOrDefault_empty _ _ h rfl
  have hdisp : mainDisplay (query_vanna jsonLoads (Transport.resp status lines))
      = noAnswerMsg := by
    rw [query_vanna_resp_def]
    show (if (lines.foldl (processLine jsonLoads) ({} : LoopState)).final_response
            = "" then noAnswerMsg
          else (lines.foldl (processLine jsonLoads) ({} : LoopState)).final_response)
        = noAnswerMsg
    rw [hr]
    simp
  refine ⟨?_, hdisp, ?_⟩
  · rw [query_vanna_resp_def]
    show some _ = some ""
    rw [hr]
  · rw [hdisp]
    rfl

/-- Claim C10, witness: one final-answer record whose `text` field is
absent. -/
theorem relay_empty_final_indistinguishable_witness :
    vrResponse (query_vanna dec10 (Transport.resp 200 lines10)) = some ""
    ∧ mainDisplay (query_vanna dec10 (Transport.resp 200 lines10))
        = noAnswerMsg
    ∧ mainDisplay (query_vanna dec10 (Transport.resp 200 lines10))
        = mainDisplay (query_vanna dec10 (Transport.resp 200 [])) :=
  relay_empty_final_indistinguishable dec10 200 lines10 (by decide)

/-- A line whose events are `some []` neither crashes nor changes the
state: falsy, unframed and decode-failure lines, and well-typed records
matching no classification, are all no-ops of the loop. -/
theorem processLineE_skip (dec : String → Decoded) (st : LoopState)
    (line : String) (h : lineEventsE dec line = some []) :
    processLineE dec st line = Except.ok st := by
  unfold lineEventsE at h
  unfold processLineE
  by_cases h1 : line = ""
  · simp [h1]
  · by_cases h2 : line.data.take 6 = ("data: ").data
    · simp only [h1, h2, if_false, if_true, if_neg, if_pos] at h ⊢
      cases hd : dec (String.mk (line.data.drop 6)) with
      | fail => simp
      | crash m => rw [hd] at h; exact absurd h (by simp)
      | record d =>
          rw [hd] at h
          simp only [Option.some.injEq] at h
          simp only [processRecord_eq, h, List.foldl_nil]
    · simp [h1, h2]

/-- A line whose payload decodes to an ill-shaped value aborts the step
with the exception message, whatever the state. -/
theorem processLineE_crash (dec : String → Decoded) (st : LoopState)
    (line m : String) (h : lineCrash dec line = some m) :
    processLineE dec st line = Except.error m := by
  unfold lineCrash at h
  unfold processLineE
  by_cases h1 : line = ""
  · rw [if_pos h1] at h
    exact absurd h (by simp)
  · by_cases h2 : line.data.take 6 = ("data: ").data
    · simp only [h1, h2, if_false, if_true, if_neg, if_pos] at h ⊢
      cases hd : dec (String.mk (line.data.drop 6)) with
      | fail => rw [hd] at h; exact absurd h (by simp)
      | crash m2 =>
          rw [hd] at h
          simp only [Option.some.injEq] at h
          rw [h]
      | record d => rw [hd] at h; exact absurd h (by simp)
    · rw [if_neg h1, if_neg h2] at h
      exact absurd h (by simp)

/-- The crash-aware loop over a concatenation runs the first part, then,
if it did not crash, the second from the reached state. -/
theorem foldLines_append (dec : String → Decoded) (as bs : List String)
    (st : LoopState) :
    foldLines dec st (as ++ bs)
      = (foldLines dec st as).bind fun st2 => foldLines dec st2 bs := by
  induction as generalizing st with
  | nil => rfl
  | cons a as ih =>
      show (match processLineE dec st a with
            | Except.ok st2 => foldLines dec st2 (as ++ bs)
            | Except.error m => Except.error m)
          = (match processLineE dec st a with
             | Except.ok st3 => foldLines dec st3 as
             | Except.error m => Except.error m).bind
            fun st2 => foldLines dec st2 bs
      cases processLineE dec st a with
      | ok st2 => exact ih st2
      | error m => rfl

/-- A stream all of whose lines are no-ops leaves the loop at its initial
state, without crashing. -/
theorem foldLines_skipAll (dec : String → Decoded) (lines : List String) :
    (∀ l ∈ lines, lineEventsE dec l = some []) → ∀ st : LoopState,
    foldLines dec st lines = Except.ok st := by
  induction lines with
  | nil => intro _ st; rfl
  | cons a as ih =>
      intro h st
      have ha := processLineE_skip dec st a (h a (by simp))
      show (match processLineE dec st a with
            | Except.ok st2 => foldLines dec st2 as
            | Except.error m => Except.error m) = _
      rw [ha]
      exact ih (fun l hl => h l (by simp [hl])) st

/-- On a line that does not crash, the crash-aware step agrees with the
crash-free step under the forgetful decoder. -/
theorem processLineE_agrees (dec : String → Decoded) (st : LoopState)
    (line : String) (h : lineCrash dec line = none) :
    processLineE dec st line
      = Except.ok (processLine (toOptDec dec) st line) := by
  unfold processLineE processLine toOptDec
  by_cases h1 : line = ""
  · simp [h1]
  · by_cases h2 : line.data.take 6 = ("data: ").data
    · unfold lineCrash at h
      rw [if_neg h1, if_pos h2] at h
      simp only [h1, h2, if_false, if_true, if_neg, if_pos]
      cases hd : dec (String.mk (line.data.drop 6)) with
      | fail => rfl
      | crash m => rw [hd] at h; exact absurd h (by simp)
      | record d => rfl
    · simp [h1, h2]

/-- On a stream without crashing lines, the crash-aware loop agrees with
the crash-free loop under the forgetful decoder. -/
theorem foldLines_agrees (dec : String → Decoded) (lines : List String) :
    (∀ l ∈ lines, lineCrash dec l = none) → ∀ st : LoopState,
    foldLines dec st lines
      = Except.ok (lines.foldl (processLine (toOptDec dec)) st) := by
  induction lines with
  | nil => intro _ st; rfl
  | cons a as ih =>
      intro h st
      have ha := processLineE_agrees dec st a (h a (by simp))
      show (match processLineE dec st a with
            | Except.ok st2 => foldLines dec st2 as
            | Except.error m => Except.error m) = _
      rw [ha]
      rw [List.foldl_cons]
      exact ih (fun l hl => h l (by simp [hl])) _

/-- Refinement: on a stream none of whose records is ill shaped, the
crash-aware model returns exactly what the crash-free model returns — the
crash-free theorems describe every stream that drains without an uncaught
exception. -/
theorem query_vannaE_agrees (dec : String → Decoded) (status : Nat)
    (lines : List String) (h : ∀ l ∈ lines, lineCrash dec l = none) :
    query_vannaE dec (Transport.resp status lines)
      = query_vanna (toOptDec dec) (Transport.resp status lines) := by
  have hf := foldLines_agrees dec lines h {}
  show (match foldLines dec {} lines with
        | Except.ok st =>
            VannaResult.ok st.final_response st.sql_query st.dataframe_data
        | Except.error m => VannaResult.error m) = _
  rw [hf]
  rfl

/-- Claim C2, counterexample: a stream whose only record is `data: 42` —
JSON-decodable, hence not a decode failure, but unrecognized (not a dict,
so `data.get('type')` raises `AttributeError`, which only the outer
`except Exception` catches) — yields `{"error": ...}`, displayed as a
failure, not the claimed zero-event NoAnswer outcome: the claim's "never
raises or aborts the stream" is false of the source. -/
theorem relay_unrecognized_record_aborts :
    query_vannaE decC2 (Transport.resp 200 ["data: 42"])
      = VannaResult.error "AttributeError: get"
    ∧ vrIsError (query_vannaE decC2 (Transport.resp 200 ["data: 42"])) = true
    ∧ mainDisplay (query_vannaE decC2 (Transport.resp 200 ["data: 42"]))
        = "❌ Error: AttributeError: get" :=
  ⟨rfl, rfl, rfl⟩

/-- Claim C2, amended: a record that fails to decode as JSON (and likewise
a falsy or unframed line, or a well-typed record matching no
classification) is skipped and iteration continues: a stream of only such
records yields the NoAnswer result displayed as the no-answer message, and
deleting a single such record from any stream — even one that later
crashes — never changes the result.  But a framed payload that decodes to
JSON of the wrong shape (a non-dict, or a dataframe record whose
`json_table` lacks a `data` key) raises past the inner handler and aborts
the whole call into `Failure(message)`, regardless of what follows it. -/
theorem relay_decode_failure_skipped
    (dec : String → Decoded) (status : Nat)
    (lines ls1 ls2 ls3 : List String) (bad crashline : String)
    (st1 : LoopState) (m : String)
    (hall : ∀ l ∈ lines, lineEventsE dec l = some [])
    (hbad : lineEventsE dec bad = some [])
    (hpre : foldLines dec {} ls3 = Except.ok st1)
    (hc : lineCrash dec crashline = some m) :
    query_vannaE dec (Transport.resp status lines) = VannaResult.ok "" none none
    ∧ mainDisplay (query_vannaE dec (Transport.resp status lines))
        = noAnswerMsg
    ∧ (∀ st : LoopState,
        foldLines dec st (ls1 ++ bad :: ls2) = foldLines dec st (ls1 ++ ls2))
    ∧ query_vannaE dec (Transport.resp status (ls1 ++ bad :: ls2))
        = query_vannaE dec (Transport.resp status (ls1 ++ ls2))
    ∧ ∀ rest : List String,
        query_vannaE dec (Transport.resp status (ls3 ++ crashline :: rest))
          = VannaResult.error m := by
  have h1 : foldLines dec ({} : LoopState) lines = Except.ok {} :=
    foldLines_skipAll dec lines hall {}
  have hq : query_vannaE dec (Transport.resp status lines)
      = VannaResult.ok "" none none := by
    show (match foldLines dec {} lines with
          | Except.ok st =>
              VannaResult.ok st.final_response st.sql_query st.dataframe_data
          | Except.error m2 => VannaResult.error m2) = _
    rw [h1]
  have hdel : ∀ st : LoopState,
      foldLines dec st (ls1 ++ bad :: ls2) = foldLines dec st (ls1 ++ ls2) := by
    intro st
    rw [foldLines_append, foldLines_append]
    cases hx : foldLines dec st ls1 with
    | ok st2 =>
        show foldLines dec st2 (bad :: ls2) = foldLines dec st2 ls2
        show (match processLineE dec st2 bad with
              | Except.ok st3 => foldLines dec st3 ls2
              | Except.error m2 => Except.error m2) = _
        rw [processLineE_skip dec st2 bad hbad]
    | error e => rfl
  refine ⟨hq, ?_, hdel, ?_, ?_⟩
  · rw [hq]
    rfl
  · show (match foldLines dec {} (ls1 ++ bad :: ls2) with
          | Except.ok st =>
              VannaResult.ok st.final_response st.sql_query st.dataframe_data
          | Except.error m2 => VannaResult.error m2) = _
    rw [hdel {}]
    rfl
  · intro rest
    have hcr : foldLines dec ({} : LoopState) (ls3 ++ crashline :: rest)
        = Except.error m := by
      rw [foldLines_append, hpre]
      show foldLines dec st1 (crashline :: rest) = Except.error m
      show (match processLineE dec st1 crashline with
            | Except.ok st2 => foldLines dec st2 rest
            | Except.error m2 => Except.error m2) = _
      rw [processLineE_crash dec st1 crashline m hc]
    show (match foldLines dec {} (ls3 ++ crashline :: rest) with
          | Except.ok st =>
              VannaResult.ok st.final_response st.sql_query st.dataframe_data
          | Except.error m2 => VannaResult.error m2) = _
    rw [hcr]

/-- Claim C2, witness: a stream of a falsy line, an unframed line, a
decode-failure line and an eventless well-typed record yields NoAnswer;
deleting the decode-failure line from a stream that later crashes changes
nothing; and the crashing `data: 42` line aborts whatever follows it. -/
theorem relay_decode_failure_skipped_witness :
    query_vannaE decC2
        (Transport.resp 200 ["", "nodata", "data: junk", "data: intermediate"])
      = VannaResult.ok "" none none
    ∧ mainDisplay (query_vannaE decC2
        (Transport.resp 200 ["", "nodata", "data: junk", "data: intermediate"]))
      = noAnswerMsg
    ∧ foldLines decC2 {} (["data: intermediate"] ++ "data: junk" :: ["data: 42"])
        = foldLines decC2 {} (["data: intermediate"] ++ ["data: 42"])
    ∧ query_vannaE decC2
        (Transport.resp 200 (["data: intermediate"] ++ "data: junk" :: ["data: 42"]))
      = query_vannaE decC2
        (Transport.resp 200 (["data: intermediate"] ++ ["data: 42"]))
    ∧ query_vannaE decC2
        (Transport.resp 200 (["data: junk"] ++ "data: 42" :: ["nodata"]))
      = VannaResult.error "AttributeError: get" := by
  have h := relay_decode_failure_skipped decC2 200
    ["", "nodata", "data: junk", "data: intermediate"]
    ["data: intermediate"] ["data: 42"] ["data: junk"]
    "data: junk" "data: 42" {} "AttributeError: get"
    (by decide) (by decide) rfl rfl
  exact ⟨h.1, h.2.1, h.2.2.1 {}, h.2.2.2.1, h.2.2.2.2 ["nodata"]⟩
